import Mathlib

/-!
Shallow embedding of the PDF-export DOM normalization pipeline of the
Proposal_Builder repository:
`src/services/optimizedImageProcessor.ts` (processImages,
applyObjectFitStyles, processSvgElements, preloadImages),
`src/services/optimizedTextProcessor.ts` (processTextElements,
processBlockBackground, processContentElement, applyFontStyles,
processShapeElements, hideUiControls), and the safe-render adapter
(renderSafeHtml).

Inline styles are modelled as a record of CSSOM declaration slots (value and
priority); the computed style the rendering engine resolves is a read-only
snapshot carried on the element.  DOM element collections are lists; the
children of an element form a finite rose tree.  JavaScript string truthiness
(empty string is falsy) and the CSSOM's rejection of unparsable values are
modelled explicitly where the code depends on them.
-/

set_option maxRecDepth 8000

set_option maxHeartbeats 1000000

/-- One inline-style declaration slot as stored by the CSSOM `style` record:
the serialized value and its priority (`""` or `"important"`).  An unset
property has the empty value. -/
structure SProp where
  value : String
  priority : String
deriving DecidableEq, Repr

/-- An unset declaration. -/
def SProp.unset : SProp := ⟨"", ""⟩

/-- Assignment through a camelCase style attribute (`el.style.x = v`):
sets the value with empty priority. -/
def SProp.assign (v : String) : SProp := ⟨v, ""⟩

/-- `el.style.setProperty(name, v, "important")`. -/
def SProp.important (v : String) : SProp := ⟨v, "important"⟩

/-- The inline-style record of an element, restricted to the properties the
export pipeline reads or writes. -/
@[ext]
structure Style where
  display : SProp := SProp.unset
  visibility : SProp := SProp.unset
  opacity : SProp := SProp.unset
  objectFit : SProp := SProp.unset
  width : SProp := SProp.unset
  height : SProp := SProp.unset
  maxWidth : SProp := SProp.unset
  maxHeight : SProp := SProp.unset
  position : SProp := SProp.unset
  top : SProp := SProp.unset
  left : SProp := SProp.unset
  transform : SProp := SProp.unset
  overflow : SProp := SProp.unset
  boxSizing : SProp := SProp.unset
  color : SProp := SProp.unset
  backgroundColor : SProp := SProp.unset
  border : SProp := SProp.unset
  padding : SProp := SProp.unset
  fontFamily : SProp := SProp.unset
  fontSize : SProp := SProp.unset
  fontWeight : SProp := SProp.unset
deriving DecidableEq, Repr

/-- A parent container of an image (`img.parentElement`), with the
`instanceof HTMLElement` test result. -/
structure ParentElem where
  isHtml : Bool
  style : Style
deriving DecidableEq, Repr

/-- An `HTMLImageElement` as the image processor sees it: the `crossOrigin`
IDL attribute, the `complete` flag used by `preloadImages`, the read-only
computed `object-fit` resolved by the rendering engine, the inline style, and
the optional parent container.  `id` is the element's identity, used to tie
load/error events to the element. -/
structure ImgElem where
  id : Nat := 0
  complete : Bool := false
  crossOrigin : Option String := none
  computedObjectFit : String := ""
  style : Style := {}
  parent : Option ParentElem := none
deriving DecidableEq, Repr

/-- JavaScript `||` on strings: the empty string is falsy. -/
def jsOr (a b : String) : String := if a = "" then b else a

/-- The object-fit resolution on line 33 of optimizedImageProcessor.ts:
`computedStyle.objectFit || img.style.objectFit || objectFitDefault`. -/
def resolveObjectFit (computed inl dflt : String) : String :=
  jsOr computed (jsOr inl dflt)

/-- Following the spec's words for claim C1 (a statement to compare against
`resolveObjectFit`, not code): the inline style value if set, else the
resolved computed value, else the default. -/
def specResolveObjectFit (computed inl dflt : String) : String :=
  jsOr inl (jsOr computed dflt)

/-- `applyObjectFitStyles` of optimizedImageProcessor.ts: the switch over the
five recognized object-fit modes; an unrecognized mode writes nothing. -/
def applyObjectFitStyles (s : Style) (objectFit : String) : Style :=
  if objectFit = "contain" then
    { s with objectFit := SProp.assign "contain", height := SProp.assign "100%",
             width := SProp.assign "auto", maxWidth := SProp.assign "none",
             position := SProp.assign "absolute", top := SProp.assign "0",
             left := SProp.assign "50%", transform := SProp.assign "translateX(-50%)" }
  else if objectFit = "cover" then
    { s with objectFit := SProp.assign "cover", width := SProp.assign "100%",
             height := SProp.assign "100%", position := SProp.assign "absolute",
             top := SProp.assign "0", left := SProp.assign "0" }
  else if objectFit = "fill" then
    { s with width := SProp.assign "100%", height := SProp.assign "100%",
             objectFit := SProp.assign "fill" }
  else if objectFit = "none" then
    { s with maxHeight := SProp.assign "100%", width := SProp.assign "auto",
             position := SProp.assign "absolute", top := SProp.assign "50%",
             left := SProp.assign "50%", transform := SProp.assign "translate(-50%, -50%)" }
  else if objectFit = "scale-down" then
    { s with maxHeight := SProp.assign "100%", width := SProp.assign "auto",
             maxWidth := SProp.assign "none", position := SProp.assign "absolute",
             top := SProp.assign "50%", left := SProp.assign "50%",
             transform := SProp.assign "translate(-50%, -50%)" }
  else s

/-- The parent-container framing at the end of the `processImages` loop. -/
def styleParentContainer (s : Style) : Style :=
  { s with position := SProp.assign "relative", overflow := SProp.assign "hidden",
           boxSizing := SProp.assign "border-box" }

/-- The guarded parent write at the end of the `processImages` loop body:
`if (container && container instanceof HTMLElement)`. -/
def parentTransform (c : ParentElem) : ParentElem :=
  if c.isHtml then { c with style := styleParentContainer c.style } else c

/-- The body of the `processImages` loop for one image. -/
def processOneImage (objectFitDefault : String) (img : ImgElem) : ImgElem :=
  let s1 : Style :=
    { img.style with display := SProp.assign "block",
                     visibility := SProp.assign "visible" }
  let fit : String := resolveObjectFit img.computedObjectFit s1.objectFit.value objectFitDefault
  let s2 : Style := applyObjectFitStyles s1 fit
  let parent' : Option ParentElem := img.parent.map parentTransform
  { img with crossOrigin := some "anonymous", style := s2, parent := parent' }

/-- `processImages` of optimizedImageProcessor.ts over a collection of
images.  The second argument is `objectFitDefault`, which callers default
to `"cover"`. -/
def processImages (images : List ImgElem) (objectFitDefault : String) : List ImgElem :=
  images.map (processOneImage objectFitDefault)

/-- A load or error event delivered by the rendering engine to the image
element with the given identity. -/
inductive ImgEvent where
  | load (target : Nat)
  | error (target : Nat)
deriving DecidableEq, Repr

/-- The element an event fires on. -/
def ImgEvent.targetId : ImgEvent → Nat
  | .load i => i
  | .error i => i

/-- The per-image promise built inside `preloadImages`: if the image is
already complete the executor resolves immediately (time 0); otherwise the
`onload` and `onerror` handlers both resolve at the first load-or-error
event for this element in the event trace.  The executor never rejects, so
a settled outcome is always `Except.ok`. -/
def imagePromise (img : ImgElem) (trace : List ImgEvent) : Option (Nat × Except Unit Unit) :=
  if img.complete then some (0, Except.ok ())
  else
    match List.findIdx? (fun e => e.targetId == img.id) trace with
    | some k => some (k + 1, Except.ok ())
    | none => none

/-- `Promise.all` over settled-or-pending outcomes: rejects at the earliest
component rejection if any component rejects; otherwise settles, with no
value, once every component has resolved (at the latest resolution time). -/
def promiseAll (ps : List (Option (Nat × Except Unit Unit))) : Option (Nat × Except Unit Unit) :=
  let rejections := ps.filterMap (fun p => match p with
    | some (t, Except.error _) => some t
    | _ => none)
  match rejections with
  | [] =>
    if ps.all Option.isSome then
      some ((ps.filterMap (fun p => p.map Prod.fst)).foldl max 0, Except.ok ())
    else none
  | t :: ts => some (ts.foldl min t, Except.error ())

/-- `preloadImages` of optimizedImageProcessor.ts:
`Promise.all(Array.from(images).map(img => new Promise(...)))`. -/
def preloadImages (images : List ImgElem) (trace : List ImgEvent) : Option (Nat × Except Unit Unit) :=
  promiseAll (images.map (fun img => imagePromise img trace))

/-- The element data the SVG, text, shape and control-visibility passes read
or write: the tag (local name), class list, the `role` attribute (`""` when
absent), the `instanceof HTMLElement` test result, the content attributes,
the computed background color resolved by the rendering engine, and the
inline style. -/
structure NData where
  tag : String := ""
  classes : List String := []
  role : String := ""
  isHtml : Bool := true
  attrs : List (String × String) := []
  computedBackgroundColor : String := ""
  style : Style := {}
deriving DecidableEq, Repr

mutual

/-- A DOM element together with its subtree. -/
inductive DomNode where
  | node (data : NData) (kids : DomForest)

/-- An ordered list of sibling subtrees. -/
inductive DomForest where
  | nil
  | cons (head : DomNode) (tail : DomForest)

end

/-- The data of the root element of a subtree. -/
def DomNode.data : DomNode → NData
  | .node d _ => d

/-- The children of the root element of a subtree. -/
def DomNode.kids : DomNode → DomForest
  | .node _ k => k

/-- The first element of a forest, when any. -/
def forestHead : DomForest → Option DomNode
  | .nil => none
  | .cons t _ => some t

mutual

/-- Apply an element-data rewrite to a node and all its descendants. -/
def mapNode (g : NData → NData) : DomNode → DomNode
  | .node d cs => .node (g d) (mapForest g cs)

/-- Apply an element-data rewrite to every element of a forest. -/
def mapForest (g : NData → NData) : DomForest → DomForest
  | .nil => .nil
  | .cons t ts => .cons (mapNode g t) (mapForest g ts)

end

mutual

/-- The data of a node and of all its descendants, in document order. -/
def nodeDataList : DomNode → List NData
  | .node d cs => d :: forestDataList cs

/-- The data of every element of a forest, in document order. -/
def forestDataList : DomForest → List NData
  | .nil => []
  | .cons t ts => nodeDataList t ++ forestDataList ts

end

mutual

/-- Whether a subtree contains an element with the given tag. -/
def nodeHasTag (t : String) : DomNode → Bool
  | .node d cs => d.tag == t || forestHasTag t cs

/-- Whether a forest contains an element with the given tag. -/
def forestHasTag (t : String) : DomForest → Bool
  | .nil => false
  | .cons n ns => nodeHasTag t n || forestHasTag t ns

end

mutual

/-- Locate the first element (in document order) whose data satisfies `p` and
replace its subtree by `f` of it; the Bool reports whether a match was found.
This is `querySelector` followed by an in-place mutation of the found
element. -/
def updateFirstNode (p : NData → Bool) (f : DomNode → DomNode) : DomNode → DomNode × Bool
  | .node d cs =>
    if p d then (f (.node d cs), true)
    else
      match updateFirstForest p f cs with
      | (cs', true) => (.node d cs', true)
      | (_, false) => (.node d cs, false)

/-- Forest version of `updateFirstNode`. -/
def updateFirstForest (p : NData → Bool) (f : DomNode → DomNode) : DomForest → DomForest × Bool
  | .nil => (.nil, false)
  | .cons t ts =>
    match updateFirstNode p f t with
    | (t', true) => (.cons t' ts, true)
    | (_, false) =>
      match updateFirstForest p f ts with
      | (ts', b) => (.cons t ts', b)

end

/-- `getAttribute`: the attribute's value, or `none` for the DOM's null when
the attribute is absent. -/
def getAttr : List (String × String) → String → Option String
  | [], _ => none
  | (m, w) :: rest, n => if m == n then some w else getAttr rest n

/-- `setAttribute`: replace the attribute's value, or append it when absent. -/
def setAttr : List (String × String) → String → String → List (String × String)
  | [], n, v => [(n, v)]
  | (m, w) :: rest, n, v => if m == n then (n, v) :: rest else (m, w) :: setAttr rest n v

/-- JavaScript truthiness of a `getAttribute` result: null and the empty
string are both falsy. -/
def attrFalsy : Option String → Bool
  | none => true
  | some v => v == ""

/-- JavaScript string coercion applied by `getAttribute(x) + "px"`: null is
printed as "null". -/
def attrString : Option String → String
  | none => "null"
  | some v => v

/-- A CSS number: digits, optionally followed by a dot and more digits. -/
def isCssNumberChars (cs : List Char) : Bool :=
  let ip := cs.takeWhile Char.isDigit
  let rest := cs.dropWhile Char.isDigit
  !ip.isEmpty &&
    (match rest with
     | [] => true
     | '.' :: frac => !frac.isEmpty && frac.all Char.isDigit
     | _ => false)

/-- Whether a character list parses as a CSS size value (restricted to the
shapes this pipeline can produce: `auto`, a px length, or a percentage). -/
def isValidCssSizeChars (cs : List Char) : Bool :=
  cs == ['a', 'u', 't', 'o'] ||
    (match cs.reverse with
     | 'x' :: 'p' :: rest => isCssNumberChars rest.reverse
     | '%' :: rest => isCssNumberChars rest.reverse
     | _ => false)

/-- Whether a string parses as a CSS size value. -/
def isValidCssSize (s : String) : Bool :=
  isValidCssSizeChars s.data

/-- Models `el.style.width = v` (and height): the CSSOM parses the assigned
text and leaves the declaration unchanged when parsing fails. -/
def assignCssSize (old : SProp) (v : String) : SProp :=
  if isValidCssSize v then SProp.assign v else old

/-- The width/height inlining step of `processSvgElements`: when the inline
size is unset, assign the size attribute's value with "px" appended (the
DOM's null coerces to "null"). -/
def inlineSvgSize (attrs : List (String × String)) (n : String) (old : SProp) : SProp :=
  if old.value = "" then assignCssSize old (attrString (getAttr attrs n) ++ "px") else old

/-- One defaulting step of the polygon loop: `if (!el.getAttribute(n))
el.setAttribute(n, v)`. -/
def defaultAttr (attrs : List (String × String)) (n v : String) : List (String × String) :=
  if attrFalsy (getAttr attrs n) then setAttr attrs n v else attrs

/-- The polygon-defaulting loop body of `processSvgElements`: supply a
default `fill`, `stroke` and `stroke-width` for each attribute whose
`getAttribute` result is falsy. -/
def processPolygonData (d : NData) : NData :=
  { d with attrs := defaultAttr (defaultAttr (defaultAttr d.attrs "fill" "#E2E8F0")
      "stroke" "#CBD5E1") "stroke-width" "1" }

/-- Restriction of the polygon defaulting to the elements
`querySelectorAll("polygon")` returns. -/
def polygonDefaulting (d : NData) : NData :=
  if d.tag == "polygon" then processPolygonData d else d

/-- The xmlns defaulting of `processSvgElements`: `if (!svg.getAttribute(
"xmlns")) svg.setAttribute("xmlns", SVG namespace)`. -/
def svgAttrs (d : NData) : List (String × String) :=
  if attrFalsy (getAttr d.attrs "xmlns") then
    setAttr d.attrs "xmlns" "http://www.w3.org/2000/svg"
  else d.attrs

/-- The style writes of the `processSvgElements` loop: width and height
inlining from the attributes (read after the xmlns step), then display
block and visibility visible. -/
def svgStyle (d : NData) : Style :=
  { d.style with width := inlineSvgSize (svgAttrs d) "width" d.style.width,
                 height := inlineSvgSize (svgAttrs d) "height" d.style.height,
                 display := SProp.assign "block",
                 visibility := SProp.assign "visible" }

/-- The body of the `processSvgElements` loop for one SVG root. -/
def processSvg : DomNode → DomNode
  | .node d cs =>
    .node { d with attrs := svgAttrs d, style := svgStyle d } (mapForest polygonDefaulting cs)

/-- `processSvgElements` of optimizedImageProcessor.ts. -/
def processSvgElements (svgElements : List DomNode) : List DomNode :=
  svgElements.map processSvg

/-- The background test of optimizedTextProcessor.ts: a computed background
color is real when it is truthy and neither fully transparent black nor the
keyword transparent. -/
def isRealBackground (c : String) : Bool :=
  !(c == "") && !(c == "rgba(0, 0, 0, 0)") && !(c == "transparent")

/-- `processBlockBackground`: copy a real computed background color into
inline style with `important`, plus an 8px padding. -/
def processBlockBackground (d : NData) : NData :=
  if isRealBackground d.computedBackgroundColor then
    { d with style :=
      { d.style with backgroundColor := SProp.important d.computedBackgroundColor,
                     padding := SProp.important "8px" } }
  else d

/-- The color-propagation loop body of `processContentElement`: an HTML
descendant with no inline color receives the content element's inline color
with `important`. -/
def setColorIfUnset (c : String) (d : NData) : NData :=
  if d.isHtml && d.style.color.value == "" then
    { d with style := { d.style with color := SProp.important c } }
  else d

/-- `applyFontStyles`: re-assert each inline font property onto itself with
`important` when it is set. -/
def applyFontStyles (s : Style) : Style :=
  let s1 := if s.fontFamily.value == "" then s
    else { s with fontFamily := SProp.important s.fontFamily.value }
  let s2 := if s1.fontSize.value == "" then s1
    else { s1 with fontSize := SProp.important s1.fontSize.value }
  if s2.fontWeight.value == "" then s2
  else { s2 with fontWeight := SProp.important s2.fontWeight.value }

/-- Steps 2 and 3 of `processContentElement` on the content element's own
style: re-assert the font properties, then force the background to
transparent when the parent block's computed background is real. -/
def contentStyle (parentComputedBg : String) (s : Style) : Style :=
  if isRealBackground parentComputedBg then
    { applyFontStyles s with backgroundColor := SProp.important "transparent" }
  else applyFontStyles s

/-- `processContentElement`: propagate the content element's inline color to
colorless HTML descendants, re-assert the font properties, and force the
content element's own background to transparent when the parent block's
computed background is real. -/
def processContentElement (parentComputedBg : String) : DomNode → DomNode
  | .node d cs =>
    let cs1 := if d.style.color.value == "" then cs
      else mapForest (setColorIfUnset d.style.color.value) cs
    .node { d with style := contentStyle parentComputedBg d.style } cs1

/-- The `querySelector(".element-content")` selector. -/
def hasContentClass (d : NData) : Bool := d.classes.contains "element-content"

/-- What `processTextElements` does to the located content element: nothing
unless it is an HTMLElement. -/
def contentTransform (parentComputedBg : String) (t : DomNode) : DomNode :=
  if t.data.isHtml then processContentElement parentComputedBg t else t

/-- The body of the `processTextElements` loop for one text element. -/
def processTextRoot (t : DomNode) : DomNode :=
  match t with
  | .node d cs =>
    if !d.isHtml then .node d cs
    else
      let d1 := processBlockBackground d
      let cs1 := (updateFirstForest hasContentClass
        (contentTransform d.computedBackgroundColor) cs).1
      .node d1 cs1

/-- `processTextElements` of optimizedTextProcessor.ts. -/
def processTextElements (textElements : List DomNode) : List DomNode :=
  textElements.map processTextRoot

/-- The body of the `processShapeElements` loop: an HTML shape container
that contains a polygon descendant gets a transparent background and no
border. -/
def processShape (t : DomNode) : DomNode :=
  match t with
  | .node d cs =>
    if !d.isHtml then .node d cs
    else if forestHasTag "polygon" cs then
      .node { d with style :=
        { d.style with backgroundColor := SProp.assign "transparent",
                       border := SProp.assign "none" } } cs
    else .node d cs

/-- `processShapeElements` of optimizedTextProcessor.ts. -/
def processShapeElements (shapeElements : List DomNode) : List DomNode :=
  shapeElements.map processShape

/-- The fixed interactive-chrome selector list of `hideUiControls`, decided
on an element's data: class selectors, the `button` tag selector, and the
`[role='button']` attribute selector. -/
def matchesUiSelector (d : NData) : Bool :=
  d.classes.contains "resize-handle" || d.classes.contains "scroll-control" ||
  d.classes.contains "v-navigation-drawer" || d.classes.contains "v-overlay" ||
  d.classes.contains "v-menu" || d.classes.contains "v-btn--icon" ||
  d.tag == "button" || d.role == "button" ||
  d.classes.contains "control-button" || d.classes.contains "handle" ||
  d.classes.contains "v-slider" || d.classes.contains "v-input__control"

/-- The `hideUiControls` loop body: a matched element that is an HTMLElement
is hidden three ways. -/
def hideUiData (d : NData) : NData :=
  if matchesUiSelector d && d.isHtml then
    { d with style :=
      { d.style with display := SProp.assign "none",
                     visibility := SProp.assign "hidden",
                     opacity := SProp.assign "0" } }
  else d

/-- `hideUiControls` of optimizedTextProcessor.ts: `querySelectorAll` over
the scope's descendants, then the hiding writes. -/
def hideUiControls (pageElement : DomNode) : DomNode :=
  match pageElement with
  | .node d cs => .node d (mapForest hideUiData cs)

/-- The container the safe-render adapter owns: only its rendered content
matters here. -/
structure SafeContainer where
  innerHTML : String
deriving DecidableEq, Repr

/-- `renderSafeHtml` of the safe-render component.  The sanitizer
(DOMPurify, a third-party dependency treated per the spec as a pluggable
capability) is a parameter that either returns sanitized HTML or throws.
The result is the container's final state paired with the exception that
escaped the call, if any: the function guards a missing container, and an
exception thrown by the sanitizer propagates before `innerHTML` is
assigned. -/
def renderSafeHtml (sanitizeHtml : String → Except Unit String) (content : String)
    (container : Option SafeContainer) : Option SafeContainer × Option Unit :=
  match container with
  | none => (none, none)
  | some el =>
    match sanitizeHtml content with
    | Except.ok s => (some { innerHTML := s }, none)
    | Except.error e => (some el, some e)

/-- An image whose stylesheet-resolved object-fit ("cover", e.g. from an
`!important` rule) differs from its inline object-fit ("contain"). -/
def c1Img : ImgElem :=
  { computedObjectFit := "cover", style := { objectFit := SProp.assign "contain" } }

/-- An SVG root with no inline size and a non-numeric `width` attribute. -/
def c4Svg : DomNode := .node { tag := "svg", isHtml := false, attrs := [("width", "abc")] } .nil

/-- An SVG root with no inline size, a numeric `width` attribute and no
`height` attribute. -/
def c4SvgW : DomNode := .node { tag := "svg", isHtml := false, attrs := [("width", "100")] } .nil

/-- An SVG root containing a polygon whose `fill` attribute is present but
empty. -/
def c8Svg : DomNode :=
  .node { tag := "svg", isHtml := false }
    (.cons (.node { tag := "polygon", isHtml := false, attrs := [("fill", "")] } .nil) .nil)

/-- An SVG root containing a bare polygon and a polygon with explicit
attributes. -/
def c8PolyData : NData :=
  { tag := "polygon", isHtml := false,
    attrs := [("fill", "#FF0000"), ("points", "0,0 10,0 5,10")] }

/-- An SVG root containing a bare polygon and a polygon with explicit
attributes. -/
def c8SvgW : DomNode :=
  .node { tag := "svg", isHtml := false }
    (.cons (.node { tag := "polygon", isHtml := false } .nil)
      (.cons (.node c8PolyData .nil) .nil))

/-- The grandchild of the claim C5 scenario: an HTML element with no inline
color of its own. -/
def c5Grandchild : DomNode := .node { tag := "span" } .nil

/-- The content sub-element of the claim C5 scenario. -/
def c5Content : DomNode :=
  .node { tag := "div", classes := ["element-content"],
          style := { color := SProp.assign "rgb(10, 10, 10)" } }
    (.cons c5Grandchild .nil)

/-- The text block of the claim C5 scenario. -/
def c5Block : DomNode :=
  .node { tag := "div", computedBackgroundColor := "rgb(200, 200, 200)" }
    (.cons c5Content .nil)

/-- A capture scope containing a non-HTML element (an SVG circle) that
carries the matched class "handle". -/
def c9Scope : DomNode :=
  .node { tag := "div" }
    (.cons (.node { tag := "circle", classes := ["handle"], isHtml := false } .nil) .nil)

/-- A capture scope containing an HTML button. -/
def c9ScopeW : DomNode :=
  .node { tag := "div" } (.cons (.node { tag := "button" } .nil) .nil)

/-- An image whose resolved object-fit is not one of the five recognized
modes. -/
def c10Img : ImgElem :=
  { computedObjectFit := "inherit", style := { position := SProp.assign "static" },
    parent := some { isHtml := true, style := {} } }

theorem le_foldl_max (l : List Nat) : ∀ a : Nat, a ≤ l.foldl max a := by
  induction l with
  | nil => intro a; exact Nat.le_refl a
  | cons x xs ih => intro a; exact Nat.le_trans (Nat.le_max_left a x) (ih (max a x))

theorem mem_le_foldl_max (l : List Nat) : ∀ (a x : Nat), x ∈ l → x ≤ l.foldl max a := by
  induction l with
  | nil => intro a x hx; cases hx
  | cons y ys ih =>
    intro a x hx
    cases hx with
    | head => exact Nat.le_trans (Nat.le_max_right a y) (le_foldl_max ys (max a y))
    | tail _ h => exact ih (max a y) x h

theorem imagePromise_ok (img : ImgElem) (trace : List ImgEvent) (t : Nat)
    (r : Except Unit Unit) (h : imagePromise img trace = some (t, r)) :
    r = Except.ok () := by
  unfold imagePromise at h
  by_cases hc : img.complete
  · simp [hc] at h
    exact h.2.symm
  · rcases hf : List.findIdx? (fun e => e.targetId == img.id) trace with _ | k
    · simp [hc, hf] at h
    · simp [hc, hf] at h
      exact h.2.symm

/-- C2: for every finite collection of images and every event trace, the
promise returned by `preloadImages` never rejects; when it settles, it
settles with the unit value at a time no earlier than the settling of every
image in the collection (an already-complete image settles immediately, an
incomplete one settles at its first load or error event); and it does
resolve as soon as every image settles. -/
theorem preloadImages_settles_all_never_rejects (images : List ImgElem) (trace : List ImgEvent) :
    (∀ t r, preloadImages images trace = some (t, r) →
        r = Except.ok () ∧
        ∀ img ∈ images, ∃ ti, imagePromise img trace = some (ti, Except.ok ()) ∧ ti ≤ t) ∧
    ((∀ img ∈ images, (imagePromise img trace).isSome) →
        (preloadImages images trace).isSome) := by
  have hrej : (images.map (fun img => imagePromise img trace)).filterMap
      (fun p => match p with
        | some (t, Except.error _) => some t
        | _ => none) = [] := by
    rw [List.filterMap_eq_nil_iff]
    intro p hp
    rcases List.mem_map.1 hp with ⟨img, _, rfl⟩
    rcases hq : imagePromise img trace with _ | ⟨ti, ri⟩
    · rfl
    · have hok := imagePromise_ok img trace ti ri hq
      subst hok
      rfl
  constructor
  · intro t r h
    unfold preloadImages promiseAll at h
    simp only [hrej] at h
    by_cases hall : (images.map (fun img => imagePromise img trace)).all Option.isSome
    · simp only [hall, if_true] at h
      have hpair := Option.some.inj h
      have ht : ((images.map (fun img => imagePromise img trace)).filterMap
          (fun p => p.map Prod.fst)).foldl max 0 = t := congrArg Prod.fst hpair
      have hr : r = Except.ok () := (congrArg Prod.snd hpair).symm
      refine ⟨hr, ?_⟩
      intro img himg
      have hmem : imagePromise img trace ∈ images.map (fun img => imagePromise img trace) :=
        List.mem_map.2 ⟨img, himg, rfl⟩
      have hsome : (imagePromise img trace).isSome := List.all_eq_true.1 hall _ hmem
      rcases Option.isSome_iff_exists.1 hsome with ⟨⟨ti, ri⟩, hq⟩
      have hok := imagePromise_ok img trace ti ri hq
      subst hok
      refine ⟨ti, hq, ?_⟩
      have hti : ti ∈ (images.map (fun img => imagePromise img trace)).filterMap
          (fun p => p.map Prod.fst) := by
        apply List.mem_filterMap.2
        exact ⟨imagePromise img trace, hmem, by rw [hq]; rfl⟩
      calc ti ≤ ((images.map (fun img => imagePromise img trace)).filterMap
            (fun p => p.map Prod.fst)).foldl max 0 := mem_le_foldl_max _ 0 ti hti
        _ = t := ht
    · simp only [hall, if_false] at h
      exact absurd h (by simp)
  · intro hall
    unfold preloadImages promiseAll
    simp only [hrej]
    have : (images.map (fun img => imagePromise img trace)).all Option.isSome := by
      apply List.all_eq_true.2
      intro p hp
      rcases List.mem_map.1 hp with ⟨img, himg, rfl⟩
      exact hall img himg
    simp [this]

/-- C2 witness: a collection with one already-complete image and one image
that settles at the first (load) event resolves at time 1, and the
incomplete image's promise settles with ok no later than that. -/
theorem preloadImages_settles_all_never_rejects_witness :
    ∃ ti, imagePromise { id := 1 : ImgElem } [ImgEvent.load 1] = some (ti, Except.ok ()) ∧ ti ≤ 1 :=
  ((preloadImages_settles_all_never_rejects [{ id := 0, complete := true }, { id := 1 }]
      [ImgEvent.load 1]).1 1 (Except.ok ()) rfl).2 { id := 1 } (by simp)

/-- C1 counterexample: for an image with inline object-fit "contain" and
computed object-fit "cover", the claimed inline-first resolution yields
"contain", but `processImages` emulates "cover": the cover branch's styles
(left 0, object-fit cover) are applied. -/
theorem objectFit_resolution_not_inline_first :
    specResolveObjectFit c1Img.computedObjectFit c1Img.style.objectFit.value "cover" = "contain" ∧
    (processImages [c1Img] "cover").map (fun i => i.style.objectFit.value) = ["cover"] ∧
    (processImages [c1Img] "cover").map (fun i => i.style.left.value) = ["0"] :=
  ⟨rfl, rfl, rfl⟩

/-- C1 amended: for every image processed by `processImages`, the effective
object-fit mode used to select the fit emulation is resolved in this
priority order: the resolved computed object-fit value if non-empty,
otherwise the image's inline style object-fit value if set, otherwise the
`objectFitDefault` argument. -/
theorem processImages_objectFit_computed_first (images : List ImgElem)
    (dflt : String) (i : Nat) (img : ImgElem) (h : images[i]? = some img) :
    ∃ img', (processImages images dflt)[i]? = some img' ∧
      img'.style = applyObjectFitStyles
        { img.style with display := SProp.assign "block", visibility := SProp.assign "visible" }
        (if img.computedObjectFit = "" then
           (if img.style.objectFit.value = "" then dflt else img.style.objectFit.value)
         else img.computedObjectFit) := by
  refine ⟨processOneImage dflt img, ?_, ?_⟩
  · simp [processImages, List.getElem?_map, h]
  · rfl

/-- C1 amended witness at the concrete image of the counterexample. -/
theorem processImages_objectFit_computed_first_witness :
    ∃ img', (processImages [c1Img] "cover")[0]? = some img' ∧
      img'.style = applyObjectFitStyles
        { c1Img.style with display := SProp.assign "block", visibility := SProp.assign "visible" }
        (if c1Img.computedObjectFit = "" then
           (if c1Img.style.objectFit.value = "" then "cover" else c1Img.style.objectFit.value)
         else c1Img.computedObjectFit) :=
  processImages_objectFit_computed_first [c1Img] "cover" 0 c1Img rfl

/-- C5: in the end-to-end scenario — a text block with computed background
rgb(200, 200, 200), a content sub-element with inline color
rgb(10, 10, 10), and a grandchild with no inline color — after
`processTextElements` the block carries the background and an 8px padding
inline with important priority, the content element's own background is
forced to transparent with important priority, and the grandchild acquires
the inline color with important priority. -/
theorem processTextElements_scenario :
    (processTextElements [c5Block]).map (fun b =>
      (b.data.style.backgroundColor, b.data.style.padding,
       (forestHead b.kids).map (fun c =>
         (c.data.style.backgroundColor,
          (forestHead c.kids).map (fun g => g.data.style.color))))) =
    [(SProp.important "rgb(200, 200, 200)", SProp.important "8px",
      some (SProp.important "transparent", some (SProp.important "rgb(10, 10, 10)")))] :=
  rfl

/-- C7 counterexample: a sanitizer failure propagates out of
`renderSafeHtml` (the call has no handler around the sanitizer), so the
adapter does not satisfy "never throws to its caller"; the container's
previous content is nevertheless left in place. -/
theorem renderSafeHtml_error_propagates :
    renderSafeHtml (fun _ => Except.error ()) "<p>x</p>" (some { innerHTML := "old" }) =
      (some { innerHTML := "old" }, some ()) :=
  rfl

/-- C7 amended: `renderSafeHtml` is a no-op without an exception when the
container is absent; when the sanitizer succeeds it replaces the rendered
content without an exception; when the sanitizer throws, the exception
propagates past the call but the container keeps its previous content. -/
theorem renderSafeHtml_container_preserved (sanitizeHtml : String → Except Unit String)
    (content : String) (container : Option SafeContainer) :
    (container = none → renderSafeHtml sanitizeHtml content container = (none, none)) ∧
    (∀ el, container = some el →
      ((∃ s, sanitizeHtml content = Except.ok s ∧
          renderSafeHtml sanitizeHtml content container = (some { innerHTML := s }, none)) ∨
       (∃ e, sanitizeHtml content = Except.error e ∧
          renderSafeHtml sanitizeHtml content container = (some el, some e)))) := by
  constructor
  · intro h
    subst h
    rfl
  · intro el h
    subst h
    rcases hs : sanitizeHtml content with e | s
    · exact Or.inr ⟨e, rfl, by simp [renderSafeHtml, hs]⟩
    · exact Or.inl ⟨s, rfl, by simp [renderSafeHtml, hs]⟩

/-- C7 amended witness: with a succeeding sanitizer and a present container,
the content is replaced and no exception escapes. -/
theorem renderSafeHtml_container_preserved_witness :
    (∃ s, (fun h : String => Except.ok (ε := Unit) h) "hi" = Except.ok s ∧
        renderSafeHtml (fun h => Except.ok h) "hi" (some { innerHTML := "old" }) =
          (some { innerHTML := s }, none)) ∨
    (∃ e, (fun h : String => Except.ok (ε := Unit) h) "hi" = Except.error e ∧
        renderSafeHtml (fun h => Except.ok h) "hi" (some { innerHTML := "old" }) =
          (some { innerHTML := "old" }, some e)) :=
  (renderSafeHtml_container_preserved (fun h => Except.ok h) "hi"
    (some { innerHTML := "old" })).2 { innerHTML := "old" } rfl

theorem processOneImage_style (dflt : String) (img : ImgElem) :
    (processOneImage dflt img).style =
      applyObjectFitStyles
        { img.style with display := SProp.assign "block", visibility := SProp.assign "visible" }
        (resolveObjectFit img.computedObjectFit img.style.objectFit.value dflt) :=
  rfl

/-- C3: for each of the five modes, an image whose resolved object-fit is
that mode ends up, after `processImages`, with inline styles matching the
mode's documented rule: cover stretches to 100% anchored top-left; contain
fixes height, frees width, and centers horizontally; fill stretches both
axes without touching the positioning properties; none caps height and
centers both axes; scale-down is none plus an unconstrained max-width. -/
theorem processImages_fit_mode_styles (images : List ImgElem) (dflt : String) (i : Nat)
    (img img' : ImgElem) (h : images[i]? = some img)
    (h' : (processImages images dflt)[i]? = some img') :
    (resolveObjectFit img.computedObjectFit img.style.objectFit.value dflt = "cover" →
      img'.style.objectFit = SProp.assign "cover" ∧
      img'.style.width = SProp.assign "100%" ∧
      img'.style.height = SProp.assign "100%" ∧
      img'.style.position = SProp.assign "absolute" ∧
      img'.style.top = SProp.assign "0" ∧
      img'.style.left = SProp.assign "0") ∧
    (resolveObjectFit img.computedObjectFit img.style.objectFit.value dflt = "contain" →
      img'.style.objectFit = SProp.assign "contain" ∧
      img'.style.height = SProp.assign "100%" ∧
      img'.style.width = SProp.assign "auto" ∧
      img'.style.maxWidth = SProp.assign "none" ∧
      img'.style.position = SProp.assign "absolute" ∧
      img'.style.top = SProp.assign "0" ∧
      img'.style.left = SProp.assign "50%" ∧
      img'.style.transform = SProp.assign "translateX(-50%)") ∧
    (resolveObjectFit img.computedObjectFit img.style.objectFit.value dflt = "fill" →
      img'.style.objectFit = SProp.assign "fill" ∧
      img'.style.width = SProp.assign "100%" ∧
      img'.style.height = SProp.assign "100%" ∧
      img'.style.position = img.style.position ∧
      img'.style.top = img.style.top ∧
      img'.style.left = img.style.left ∧
      img'.style.transform = img.style.transform) ∧
    (resolveObjectFit img.computedObjectFit img.style.objectFit.value dflt = "none" →
      img'.style.maxHeight = SProp.assign "100%" ∧
      img'.style.width = SProp.assign "auto" ∧
      img'.style.position = SProp.assign "absolute" ∧
      img'.style.top = SProp.assign "50%" ∧
      img'.style.left = SProp.assign "50%" ∧
      img'.style.transform = SProp.assign "translate(-50%, -50%)") ∧
    (resolveObjectFit img.computedObjectFit img.style.objectFit.value dflt = "scale-down" →
      img'.style.maxHeight = SProp.assign "100%" ∧
      img'.style.width = SProp.assign "auto" ∧
      img'.style.maxWidth = SProp.assign "none" ∧
      img'.style.position = SProp.assign "absolute" ∧
      img'.style.top = SProp.assign "50%" ∧
      img'.style.left = SProp.assign "50%" ∧
      img'.style.transform = SProp.assign "translate(-50%, -50%)") := by
  have himg : img' = processOneImage dflt img := by
    rw [processImages, List.getElem?_map, h] at h'
    exact (Option.some.inj h').symm
  subst himg
  refine ⟨fun hfit => ?_, fun hfit => ?_, fun hfit => ?_, fun hfit => ?_, fun hfit => ?_⟩ <;>
    rw [processOneImage_style, hfit]
  · exact ⟨rfl, rfl, rfl, rfl, rfl, rfl⟩
  · exact ⟨rfl, rfl, rfl, rfl, rfl, rfl, rfl, rfl⟩
  · exact ⟨rfl, rfl, rfl, rfl, rfl, rfl, rfl⟩
  · exact ⟨rfl, rfl, rfl, rfl, rfl, rfl⟩
  · exact ⟨rfl, rfl, rfl, rfl, rfl, rfl, rfl⟩

/-- C3 witness: an image resolving to cover gets inline width 100%. -/
theorem processImages_fit_mode_styles_witness :
    (processOneImage "cover" { computedObjectFit := "cover" : ImgElem }).style.width =
      SProp.assign "100%" :=
  ((processImages_fit_mode_styles [{ computedObjectFit := "cover" }] "cover" 0
      { computedObjectFit := "cover" } (processOneImage "cover" { computedObjectFit := "cover" })
      rfl rfl).1 rfl).2.1

/-- C10: an image whose resolved object-fit is not one of the five
recognized modes still gets cross-origin anonymous, inline display block and
visibility visible, and its parent container styled; the fit emulation
writes nothing: object-fit, width, height, max-width, max-height, position,
top, left and transform keep their previous inline values. -/
theorem processImages_unknown_fit_frame (images : List ImgElem) (dflt : String) (i : Nat)
    (img img' : ImgElem) (h : images[i]? = some img)
    (h' : (processImages images dflt)[i]? = some img')
    (hfit : ∀ m ∈ (["cover", "contain", "fill", "none", "scale-down"] : List String),
      resolveObjectFit img.computedObjectFit img.style.objectFit.value dflt ≠ m) :
    img'.crossOrigin = some "anonymous" ∧
    img'.style.display = SProp.assign "block" ∧
    img'.style.visibility = SProp.assign "visible" ∧
    img'.style.objectFit = img.style.objectFit ∧
    img'.style.width = img.style.width ∧
    img'.style.height = img.style.height ∧
    img'.style.maxWidth = img.style.maxWidth ∧
    img'.style.maxHeight = img.style.maxHeight ∧
    img'.style.position = img.style.position ∧
    img'.style.top = img.style.top ∧
    img'.style.left = img.style.left ∧
    img'.style.transform = img.style.transform ∧
    (∀ c, img.parent = some c → c.isHtml = true →
      img'.parent = some { c with style := styleParentContainer c.style }) := by
  have himg : img' = processOneImage dflt img := by
    rw [processImages, List.getElem?_map, h] at h'
    exact (Option.some.inj h').symm
  subst himg
  have h1 := hfit "contain" (by simp)
  have h2 := hfit "cover" (by simp)
  have h3 := hfit "fill" (by simp)
  have h4 := hfit "none" (by simp)
  have h5 := hfit "scale-down" (by simp)
  refine ⟨rfl, ?_, ?_, ?_, ?_, ?_, ?_, ?_, ?_, ?_, ?_, ?_, ?_⟩
  all_goals try (rw [processOneImage_style]; simp [applyObjectFitStyles, h1, h2, h3, h4, h5])
  intro c hc hch
  simp [processOneImage, parentTransform, hc, hch]

/-- C10 witness at an image with computed object-fit "inherit". -/
theorem processImages_unknown_fit_frame_witness :
    (processOneImage "cover" c10Img).style.position = c10Img.style.position :=
  (processImages_unknown_fit_frame [c10Img] "cover" 0 c10Img
      (processOneImage "cover" c10Img) rfl rfl
      (by decide)).2.2.2.2.2.2.2.2.1

theorem getAttr_setAttr_self (a : List (String × String)) (n v : String) :
    getAttr (setAttr a n v) n = some v := by
  induction a with
  | nil => simp [setAttr, getAttr]
  | cons hd tl ih =>
    rcases hd with ⟨m, w⟩
    by_cases hm : m = n
    · subst hm
      simp [setAttr, getAttr]
    · simp [setAttr, getAttr, hm, ih]

theorem getAttr_setAttr_ne (a : List (String × String)) (n v m : String) (h : ¬ m = n) :
    getAttr (setAttr a n v) m = getAttr a m := by
  have hnm : ¬ n = m := fun hh => h hh.symm
  induction a with
  | nil => simp [setAttr, getAttr, hnm]
  | cons hd tl ih =>
    rcases hd with ⟨k, w⟩
    by_cases hk : k = n
    · subst hk
      simp [setAttr, getAttr, hnm]
    · simp only [setAttr, beq_iff_eq, hk, if_false, getAttr]
      by_cases hkm : k = m
      · simp [hkm]
      · simp [hkm, ih]

theorem getAttr_defaultAttr_falsy (a : List (String × String)) (n v : String)
    (h : attrFalsy (getAttr a n) = true) :
    getAttr (defaultAttr a n v) n = some v := by
  simp [defaultAttr, h, getAttr_setAttr_self]

theorem getAttr_defaultAttr_truthy (a : List (String × String)) (n v w : String)
    (h : getAttr a n = some w) (hw : ¬ w = "") :
    getAttr (defaultAttr a n v) n = some w := by
  have hfalse : attrFalsy (getAttr a n) = false := by simp [attrFalsy, h, hw]
  rw [defaultAttr, hfalse]
  simp [h]

theorem getAttr_defaultAttr_ne (a : List (String × String)) (n v m : String) (h : ¬ m = n) :
    getAttr (defaultAttr a n v) m = getAttr a m := by
  unfold defaultAttr
  split
  · exact getAttr_setAttr_ne a n v m h
  · rfl

theorem domNode_eta (t : DomNode) : DomNode.node t.data t.kids = t := by
  cases t
  rfl

mutual

theorem nodeDataList_mapNode (g : NData → NData) :
    ∀ t x, x ∈ nodeDataList (mapNode g t) → ∃ y, y ∈ nodeDataList t ∧ x = g y
  | .node d cs => by
    intro x hx
    simp only [mapNode, nodeDataList] at hx
    rcases List.mem_cons.1 hx with h | h
    · exact ⟨d, List.mem_cons_self _ _, h⟩
    · rcases forestDataList_mapForest g cs x h with ⟨y, hy, hxy⟩
      exact ⟨y, List.mem_cons_of_mem _ hy, hxy⟩

theorem forestDataList_mapForest (g : NData → NData) :
    ∀ l x, x ∈ forestDataList (mapForest g l) → ∃ y, y ∈ forestDataList l ∧ x = g y
  | .nil => by
    intro x hx
    simp only [mapForest, forestDataList] at hx
    cases hx
  | .cons t ts => by
    intro x hx
    simp only [mapForest, forestDataList] at hx
    rcases List.mem_append.1 hx with h | h
    · rcases nodeDataList_mapNode g t x h with ⟨y, hy, hxy⟩
      exact ⟨y, List.mem_append.2 (Or.inl hy), hxy⟩
    · rcases forestDataList_mapForest g ts x h with ⟨y, hy, hxy⟩
      exact ⟨y, List.mem_append.2 (Or.inr hy), hxy⟩

end

mutual

theorem mapNode_idem (g : NData → NData) (hg : ∀ x, g (g x) = g x) :
    ∀ t, mapNode g (mapNode g t) = mapNode g t
  | .node d cs => by
    simp only [mapNode]
    rw [hg, mapForest_idem g hg cs]

theorem mapForest_idem (g : NData → NData) (hg : ∀ x, g (g x) = g x) :
    ∀ l, mapForest g (mapForest g l) = mapForest g l
  | .nil => rfl
  | .cons t ts => by
    simp only [mapForest]
    rw [mapNode_idem g hg t, mapForest_idem g hg ts]

end

theorem inlineSvgSize_spec (attrs : List (String × String)) (n : String) (old : SProp) :
    (¬ old.value = "" → inlineSvgSize attrs n old = old) ∧
    (old.value = "" → getAttr attrs n = none → inlineSvgSize attrs n old = old) ∧
    (∀ v, old.value = "" → getAttr attrs n = some v → isValidCssSize (v ++ "px") = true →
        inlineSvgSize attrs n old = SProp.assign (v ++ "px")) ∧
    (∀ v, old.value = "" → getAttr attrs n = some v → isValidCssSize (v ++ "px") = false →
        inlineSvgSize attrs n old = old) := by
  refine ⟨?_, ?_, ?_, ?_⟩
  · intro h
    simp [inlineSvgSize, h]
  · intro h hn
    have hnull : isValidCssSize "nullpx" = false := rfl
    simp [inlineSvgSize, h, hn, attrString, assignCssSize, hnull]
  · intro v h hv hvalid
    simp [inlineSvgSize, h, hv, attrString, assignCssSize, hvalid]
  · intro v h hv hvalid
    simp [inlineSvgSize, h, hv, attrString, assignCssSize, hvalid]

/-- C4 counterexample: an SVG whose `width` attribute is present but not
numeric ("abc"): the claim as stated would require inline width "abcpx",
but the style engine rejects the malformed value and the inline width stays
unset. -/
theorem processSvgElements_nonnumeric_width_attr_not_inlined :
    getAttr c4Svg.data.attrs "width" = some "abc" ∧
    (processSvgElements [c4Svg]).map (fun t => t.data.style.width.value) = [""] ∧
    "abc" ++ "px" = "abcpx" :=
  ⟨rfl, rfl, rfl⟩

/-- C4 amended: for every SVG root processed by `processSvgElements` whose
inline width (resp. height) is unset, the width (resp. height) attribute's
value with "px" appended is assigned to the inline style; the style engine
keeps it only when it parses as a CSS size, so an absent attribute (whose
null coerces to "nullpx") or a non-numeric value leaves the inline size
unchanged rather than malformed.  A set inline size is never touched. -/
theorem processSvgElements_size_inlining (svgs : List DomNode) (d : NData) (cs : DomForest)
    (h : DomNode.node d cs ∈ svgs) :
    ∃ d' cs', DomNode.node d' cs' ∈ processSvgElements svgs ∧
      (¬ d.style.width.value = "" → d'.style.width = d.style.width) ∧
      (d.style.width.value = "" → getAttr d.attrs "width" = none →
          d'.style.width = d.style.width) ∧
      (∀ v, d.style.width.value = "" → getAttr d.attrs "width" = some v →
          isValidCssSize (v ++ "px") = true → d'.style.width = SProp.assign (v ++ "px")) ∧
      (∀ v, d.style.width.value = "" → getAttr d.attrs "width" = some v →
          isValidCssSize (v ++ "px") = false → d'.style.width = d.style.width) ∧
      (¬ d.style.height.value = "" → d'.style.height = d.style.height) ∧
      (d.style.height.value = "" → getAttr d.attrs "height" = none →
          d'.style.height = d.style.height) ∧
      (∀ v, d.style.height.value = "" → getAttr d.attrs "height" = some v →
          isValidCssSize (v ++ "px") = true → d'.style.height = SProp.assign (v ++ "px")) ∧
      (∀ v, d.style.height.value = "" → getAttr d.attrs "height" = some v →
          isValidCssSize (v ++ "px") = false → d'.style.height = d.style.height) := by
  have haw : getAttr (svgAttrs d) "width" = getAttr d.attrs "width" := by
    unfold svgAttrs
    split
    · exact getAttr_setAttr_ne d.attrs "xmlns" _ "width" (by decide)
    · rfl
  have hah : getAttr (svgAttrs d) "height" = getAttr d.attrs "height" := by
    unfold svgAttrs
    split
    · exact getAttr_setAttr_ne d.attrs "xmlns" _ "height" (by decide)
    · rfl
  refine ⟨{ d with attrs := svgAttrs d, style := svgStyle d }, mapForest polygonDefaulting cs,
    List.mem_map.2 ⟨DomNode.node d cs, h, rfl⟩, ?_, ?_, ?_, ?_, ?_, ?_, ?_, ?_⟩
  · intro hne
    exact (inlineSvgSize_spec (svgAttrs d) "width" d.style.width).1 hne
  · intro h0 hnone
    exact (inlineSvgSize_spec (svgAttrs d) "width" d.style.width).2.1 h0 (by rw [haw]; exact hnone)
  · intro v h0 hv hvalid
    exact (inlineSvgSize_spec (svgAttrs d) "width" d.style.width).2.2.1 v h0
      (by rw [haw]; exact hv) hvalid
  · intro v h0 hv hvalid
    exact (inlineSvgSize_spec (svgAttrs d) "width" d.style.width).2.2.2 v h0
      (by rw [haw]; exact hv) hvalid
  · intro hne
    exact (inlineSvgSize_spec (svgAttrs d) "height" d.style.height).1 hne
  · intro h0 hnone
    exact (inlineSvgSize_spec (svgAttrs d) "height" d.style.height).2.1 h0 (by rw [hah]; exact hnone)
  · intro v h0 hv hvalid
    exact (inlineSvgSize_spec (svgAttrs d) "height" d.style.height).2.2.1 v h0
      (by rw [hah]; exact hv) hvalid
  · intro v h0 hv hvalid
    exact (inlineSvgSize_spec (svgAttrs d) "height" d.style.height).2.2.2 v h0
      (by rw [hah]; exact hv) hvalid

/-- C4 amended witness at an SVG with numeric width attribute "100" and no
height attribute. -/
theorem processSvgElements_size_inlining_witness :
    ∃ d' cs', DomNode.node d' cs' ∈ processSvgElements [c4SvgW] ∧
      (¬ c4SvgW.data.style.width.value = "" → d'.style.width = c4SvgW.data.style.width) ∧
      (c4SvgW.data.style.width.value = "" → getAttr c4SvgW.data.attrs "width" = none →
          d'.style.width = c4SvgW.data.style.width) ∧
      (∀ v, c4SvgW.data.style.width.value = "" → getAttr c4SvgW.data.attrs "width" = some v →
          isValidCssSize (v ++ "px") = true → d'.style.width = SProp.assign (v ++ "px")) ∧
      (∀ v, c4SvgW.data.style.width.value = "" → getAttr c4SvgW.data.attrs "width" = some v →
          isValidCssSize (v ++ "px") = false → d'.style.width = c4SvgW.data.style.width) ∧
      (¬ c4SvgW.data.style.height.value = "" → d'.style.height = c4SvgW.data.style.height) ∧
      (c4SvgW.data.style.height.value = "" → getAttr c4SvgW.data.attrs "height" = none →
          d'.style.height = c4SvgW.data.style.height) ∧
      (∀ v, c4SvgW.data.style.height.value = "" → getAttr c4SvgW.data.attrs "height" = some v →
          isValidCssSize (v ++ "px") = true → d'.style.height = SProp.assign (v ++ "px")) ∧
      (∀ v, c4SvgW.data.style.height.value = "" → getAttr c4SvgW.data.attrs "height" = some v →
          isValidCssSize (v ++ "px") = false → d'.style.height = c4SvgW.data.style.height) :=
  processSvgElements_size_inlining [c4SvgW] c4SvgW.data DomForest.nil (List.mem_singleton.2 rfl)

/-- C8 counterexample: a polygon whose `fill` attribute is present with the
empty value: its existing value is not left untouched — the JavaScript
truthiness test treats it as missing and overwrites it with the default. -/
theorem processSvgElements_empty_fill_overwritten :
    (forestHead c8Svg.kids).map (fun p => getAttr p.data.attrs "fill") = some (some "") ∧
    ((processSvgElements [c8Svg]).head?.bind (fun t => forestHead t.kids)).map
      (fun p => getAttr p.data.attrs "fill") = some (some "#E2E8F0") :=
  ⟨rfl, rfl⟩

/-- C8 amended: for every polygon descendant of an SVG processed by
`processSvgElements`: each of fill, stroke and stroke-width whose
`getAttribute` result is falsy (absent, or present with the empty value)
receives the documented default (#E2E8F0, #CBD5E1, 1 respectively); each of
the three present with a non-empty value keeps its value untouched; and no
other attribute changes. -/
theorem processSvgElements_polygon_defaulting (svgs : List DomNode) (d : NData) (cs : DomForest)
    (h : DomNode.node d cs ∈ svgs) :
    ∃ cs', DomNode.node { d with attrs := svgAttrs d, style := svgStyle d } cs'
        ∈ processSvgElements svgs ∧
      ∀ x ∈ forestDataList cs', x.tag = "polygon" →
        ∃ y, y ∈ forestDataList cs ∧ y.tag = "polygon" ∧
          (attrFalsy (getAttr y.attrs "fill") = true →
              getAttr x.attrs "fill" = some "#E2E8F0") ∧
          (∀ v, getAttr y.attrs "fill" = some v → ¬ v = "" →
              getAttr x.attrs "fill" = some v) ∧
          (attrFalsy (getAttr y.attrs "stroke") = true →
              getAttr x.attrs "stroke" = some "#CBD5E1") ∧
          (∀ v, getAttr y.attrs "stroke" = some v → ¬ v = "" →
              getAttr x.attrs "stroke" = some v) ∧
          (attrFalsy (getAttr y.attrs "stroke-width") = true →
              getAttr x.attrs "stroke-width" = some "1") ∧
          (∀ v, getAttr y.attrs "stroke-width" = some v → ¬ v = "" →
              getAttr x.attrs "stroke-width" = some v) ∧
          (∀ n, ¬ n = "fill" → ¬ n = "stroke" → ¬ n = "stroke-width" →
              getAttr x.attrs n = getAttr y.attrs n) := by
  refine ⟨mapForest polygonDefaulting cs, List.mem_map.2 ⟨DomNode.node d cs, h, rfl⟩, ?_⟩
  intro x hx htag
  rcases forestDataList_mapForest polygonDefaulting cs x hx with ⟨y, hy, hxy⟩
  subst hxy
  have htag' : (polygonDefaulting y).tag = y.tag := by
    unfold polygonDefaulting
    split
    · rfl
    · rfl
  have hyt : y.tag = "polygon" := by rw [← htag']; exact htag
  have hpd : polygonDefaulting y = processPolygonData y := by
    simp [polygonDefaulting, hyt]
  rw [hpd]
  have hattrs : (processPolygonData y).attrs =
      defaultAttr (defaultAttr (defaultAttr y.attrs "fill" "#E2E8F0")
        "stroke" "#CBD5E1") "stroke-width" "1" := rfl
  have hfs : getAttr (defaultAttr y.attrs "fill" "#E2E8F0") "stroke" =
      getAttr y.attrs "stroke" := getAttr_defaultAttr_ne _ _ _ _ (by decide)
  have hfw : getAttr (defaultAttr y.attrs "fill" "#E2E8F0") "stroke-width" =
      getAttr y.attrs "stroke-width" := getAttr_defaultAttr_ne _ _ _ _ (by decide)
  have hsf : getAttr (defaultAttr (defaultAttr y.attrs "fill" "#E2E8F0") "stroke" "#CBD5E1")
      "fill" = getAttr (defaultAttr y.attrs "fill" "#E2E8F0") "fill" :=
    getAttr_defaultAttr_ne _ _ _ _ (by decide)
  have hsw : getAttr (defaultAttr (defaultAttr y.attrs "fill" "#E2E8F0") "stroke" "#CBD5E1")
      "stroke-width" = getAttr (defaultAttr y.attrs "fill" "#E2E8F0") "stroke-width" :=
    getAttr_defaultAttr_ne _ _ _ _ (by decide)
  have hwf : getAttr (defaultAttr (defaultAttr (defaultAttr y.attrs "fill" "#E2E8F0")
      "stroke" "#CBD5E1") "stroke-width" "1") "fill" =
      getAttr (defaultAttr (defaultAttr y.attrs "fill" "#E2E8F0") "stroke" "#CBD5E1") "fill" :=
    getAttr_defaultAttr_ne _ _ _ _ (by decide)
  have hws : getAttr (defaultAttr (defaultAttr (defaultAttr y.attrs "fill" "#E2E8F0")
      "stroke" "#CBD5E1") "stroke-width" "1") "stroke" =
      getAttr (defaultAttr (defaultAttr y.attrs "fill" "#E2E8F0") "stroke" "#CBD5E1") "stroke" :=
    getAttr_defaultAttr_ne _ _ _ _ (by decide)
  refine ⟨y, hy, hyt, ?_, ?_, ?_, ?_, ?_, ?_, ?_⟩
  · intro hfalsy
    rw [hattrs, hwf, hsf]
    exact getAttr_defaultAttr_falsy y.attrs "fill" "#E2E8F0" hfalsy
  · intro v hv hvne
    rw [hattrs, hwf, hsf]
    exact getAttr_defaultAttr_truthy y.attrs "fill" "#E2E8F0" v hv hvne
  · intro hfalsy
    rw [hattrs, hws]
    exact getAttr_defaultAttr_falsy _ "stroke" "#CBD5E1" (by rw [hfs]; exact hfalsy)
  · intro v hv hvne
    rw [hattrs, hws]
    exact getAttr_defaultAttr_truthy _ "stroke" "#CBD5E1" v (by rw [hfs]; exact hv) hvne
  · intro hfalsy
    rw [hattrs]
    exact getAttr_defaultAttr_falsy _ "stroke-width" "1" (by rw [hsw, hfw]; exact hfalsy)
  · intro v hv hvne
    rw [hattrs]
    exact getAttr_defaultAttr_truthy _ "stroke-width" "1" v (by rw [hsw, hfw]; exact hv) hvne
  · intro n hn1 hn2 hn3
    rw [hattrs]
    rw [getAttr_defaultAttr_ne _ "stroke-width" "1" n hn3,
        getAttr_defaultAttr_ne _ "stroke" "#CBD5E1" n hn2,
        getAttr_defaultAttr_ne _ "fill" "#E2E8F0" n hn1]

/-- C8 amended witness at an SVG containing a bare polygon and a polygon
with an explicit non-empty fill. -/
theorem processSvgElements_polygon_defaulting_witness :
    ∃ cs', DomNode.node { c8SvgW.data with attrs := svgAttrs c8SvgW.data, style := svgStyle c8SvgW.data } cs' ∈ processSvgElements [c8SvgW] ∧
      ∀ x ∈ forestDataList cs', x.tag = "polygon" →
        ∃ y, y ∈ forestDataList c8SvgW.kids ∧ y.tag = "polygon" ∧
          (attrFalsy (getAttr y.attrs "fill") = true →
              getAttr x.attrs "fill" = some "#E2E8F0") ∧
          (∀ v, getAttr y.attrs "fill" = some v → ¬ v = "" →
              getAttr x.attrs "fill" = some v) ∧
          (attrFalsy (getAttr y.attrs "stroke") = true →
              getAttr x.attrs "stroke" = some "#CBD5E1") ∧
          (∀ v, getAttr y.attrs "stroke" = some v → ¬ v = "" →
              getAttr x.attrs "stroke" = some v) ∧
          (attrFalsy (getAttr y.attrs "stroke-width") = true →
              getAttr x.attrs "stroke-width" = some "1") ∧
          (∀ v, getAttr y.attrs "stroke-width" = some v → ¬ v = "" →
              getAttr x.attrs "stroke-width" = some v) ∧
          (∀ n, ¬ n = "fill" → ¬ n = "stroke" → ¬ n = "stroke-width" →
              getAttr x.attrs n = getAttr y.attrs n) :=
  processSvgElements_polygon_defaulting [c8SvgW] c8SvgW.data c8SvgW.kids
    (List.mem_singleton.2 (domNode_eta c8SvgW))

/-- C9 counterexample: a scope containing a non-HTML element (an SVG circle)
with the matched class "handle": after `hideUiControls` it matches the
selector list but none of display, visibility or opacity has been set. -/
theorem hideUiControls_skips_non_html :
    ((forestHead (hideUiControls c9Scope).kids).map (fun t =>
      (matchesUiSelector t.data, t.data.style.display.value,
       t.data.style.visibility.value, t.data.style.opacity.value))) =
    some (true, "", "", "") :=
  rfl

/-- C9 amended: after `hideUiControls`, every element within the scope that
matches the fixed interactive-chrome selector list and is an HTML element
simultaneously has inline display none, visibility hidden, and opacity
"0". -/
theorem hideUiControls_hides_html_matches (scopeRoot : DomNode) (x : NData)
    (hx : x ∈ forestDataList (hideUiControls scopeRoot).kids)
    (hm : matchesUiSelector x = true) (hh : x.isHtml = true) :
    x.style.display = SProp.assign "none" ∧
    x.style.visibility = SProp.assign "hidden" ∧
    x.style.opacity = SProp.assign "0" := by
  rcases scopeRoot with ⟨d, cs⟩
  have hx' : x ∈ forestDataList (mapForest hideUiData cs) := by
    simpa [hideUiControls, DomNode.kids] using hx
  rcases forestDataList_mapForest hideUiData cs x hx' with ⟨y, hy, hxy⟩
  subst hxy
  by_cases hcond : (matchesUiSelector y && y.isHtml) = true
  · refine ⟨?_, ?_, ?_⟩ <;> simp [hideUiData, hcond]
  · have hid : hideUiData y = y := by simp [hideUiData, hcond]
    rw [hid] at hm hh
    exact absurd (show (matchesUiSelector y && y.isHtml) = true by simp [hm, hh]) hcond

/-- C9 amended witness at a scope containing an HTML button. -/
theorem hideUiControls_hides_html_matches_witness :
    (hideUiData { tag := "button" }).style.display = SProp.assign "none" ∧
    (hideUiData { tag := "button" }).style.visibility = SProp.assign "hidden" ∧
    (hideUiData { tag := "button" }).style.opacity = SProp.assign "0" :=
  hideUiControls_hides_html_matches c9ScopeW (hideUiData { tag := "button" })
    (by decide) rfl rfl

theorem apply_display (s : Style) (m : String) :
    (applyObjectFitStyles s m).display = s.display := by
  unfold applyObjectFitStyles
  split_ifs <;> rfl

theorem apply_visibility (s : Style) (m : String) :
    (applyObjectFitStyles s m).visibility = s.visibility := by
  unfold applyObjectFitStyles
  split_ifs <;> rfl

theorem apply_objectFit_value (s : Style) (m : String) :
    (applyObjectFitStyles s m).objectFit.value =
      (if m = "contain" then "contain" else if m = "cover" then "cover"
       else if m = "fill" then "fill" else s.objectFit.value) := by
  unfold applyObjectFitStyles
  split_ifs <;> rfl

theorem applyObjectFitStyles_idem (s : Style) (m : String) :
    applyObjectFitStyles (applyObjectFitStyles s m) m = applyObjectFitStyles s m := by
  unfold applyObjectFitStyles
  split_ifs <;> rfl

theorem jsOr_stability (c i d : String) :
    jsOr c (jsOr (if jsOr c (jsOr i d) = "contain" then "contain"
      else if jsOr c (jsOr i d) = "cover" then "cover"
      else if jsOr c (jsOr i d) = "fill" then "fill" else i) d) = jsOr c (jsOr i d) := by
  unfold jsOr
  by_cases hc : c = ""
  · simp only [hc, if_true]
    by_cases h1 : (if i = "" then d else i) = "contain"
    · simp [h1]
    · by_cases h2 : (if i = "" then d else i) = "cover"
      · simp [h1, h2]
      · by_cases h3 : (if i = "" then d else i) = "fill"
        · simp [h1, h2, h3]
        · simp [h1, h2, h3]
  · simp [hc]

theorem resolve_after_apply (comp dflt iv : String) (s : Style)
    (hiv : s.objectFit.value = iv) :
    resolveObjectFit comp
      (applyObjectFitStyles s (resolveObjectFit comp iv dflt)).objectFit.value dflt
      = resolveObjectFit comp iv dflt := by
  rw [apply_objectFit_value, hiv]
  exact jsOr_stability comp iv dflt

theorem style_dv_update_self (s : Style) (h1 : s.display = SProp.assign "block")
    (h2 : s.visibility = SProp.assign "visible") :
    ({ s with display := SProp.assign "block", visibility := SProp.assign "visible" } : Style)
      = s := by
  cases s
  simp_all

theorem parentTransform_idem (c : ParentElem) :
    parentTransform (parentTransform c) = parentTransform c := by
  by_cases hc : c.isHtml = true
  · have h1 : parentTransform c = { c with style := styleParentContainer c.style } := by
      simp [parentTransform, hc]
    rw [h1]
    show (if ({ c with style := styleParentContainer c.style } : ParentElem).isHtml then _ else _)
      = ({ c with style := styleParentContainer c.style } : ParentElem)
    rw [show ({ c with style := styleParentContainer c.style } : ParentElem).isHtml = c.isHtml
      from rfl, hc]
    rfl
  · have h1 : parentTransform c = c := by simp [parentTransform, hc]
    rw [h1, h1]

theorem processOneImage_idem (dflt : String) (img : ImgElem) :
    processOneImage dflt (processOneImage dflt img) = processOneImage dflt img := by
  cases img with
  | mk i0 c0 x0 comp0 st0 par0 =>
    simp only [processOneImage, ImgElem.mk.injEq]
    refine ⟨trivial, trivial, trivial, trivial, ?_, ?_⟩
    · rw [style_dv_update_self (applyObjectFitStyles { st0 with display := SProp.assign "block", visibility := SProp.assign "visible" } (resolveObjectFit comp0 st0.objectFit.value dflt)) (by rw [apply_display]) (by rw [apply_visibility])]
      rw [resolve_after_apply comp0 dflt st0.objectFit.value { st0 with display := SProp.assign "block", visibility := SProp.assign "visible" } rfl]
      exact applyObjectFitStyles_idem _ _
    · rcases par0 with _ | c
      · rfl
      · simp only [Option.map_some']
        exact congrArg some (parentTransform_idem c)

/-- Idempotence of `processImages` for any collection and default. -/
theorem processImages_idem (images : List ImgElem) (dflt : String) :
    processImages (processImages images dflt) dflt = processImages images dflt := by
  unfold processImages
  rw [List.map_map]
  apply List.map_congr_left
  intro img _
  exact processOneImage_idem dflt img

theorem valid_ne_empty (v : String) (h : isValidCssSize v = true) : ¬ v = "" := by
  intro hv
  subst hv
  exact absurd h (by decide)

theorem inlineSvgSize_idem (a : List (String × String)) (n : String) (old : SProp) :
    inlineSvgSize a n (inlineSvgSize a n old) = inlineSvgSize a n old := by
  by_cases h : old.value = ""
  · by_cases hval : isValidCssSize (attrString (getAttr a n) ++ "px") = true
    · have h1 : inlineSvgSize a n old = SProp.assign (attrString (getAttr a n) ++ "px") := by
        simp [inlineSvgSize, h, assignCssSize, hval]
      rw [h1]
      have hne : ¬ (SProp.assign (attrString (getAttr a n) ++ "px")).value = "" :=
        valid_ne_empty _ hval
      simp [inlineSvgSize, hne]
    · have h1 : inlineSvgSize a n old = old := by
        simp [inlineSvgSize, h, assignCssSize, hval]
      rw [h1]
      exact h1
  · have h1 : inlineSvgSize a n old = old := by simp [inlineSvgSize, h]
    rw [h1]
    exact h1

theorem attrFalsy_defaultAttr (a : List (String × String)) (n v : String) (hv : ¬ v = "") :
    attrFalsy (getAttr (defaultAttr a n v) n) = false := by
  by_cases h : attrFalsy (getAttr a n) = true
  · rw [getAttr_defaultAttr_falsy a n v h]
    simp [attrFalsy, hv]
  · have : defaultAttr a n v = a := by simp [defaultAttr, h]
    rw [this]
    exact Bool.eq_false_iff.2 h

theorem processPolygonData_attrs (d : NData) :
    (processPolygonData d).attrs =
      defaultAttr (defaultAttr (defaultAttr d.attrs "fill" "#E2E8F0")
        "stroke" "#CBD5E1") "stroke-width" "1" := rfl

theorem defaultAttr_of_stable (a : List (String × String)) (n v : String)
    (h : attrFalsy (getAttr a n) = false) : defaultAttr a n v = a := by
  simp [defaultAttr, h]

theorem processPolygonData_idem (d : NData) :
    processPolygonData (processPolygonData d) = processPolygonData d := by
  have hsw : attrFalsy (getAttr (processPolygonData d).attrs "stroke-width") = false := by
    rw [processPolygonData_attrs]
    exact attrFalsy_defaultAttr _ _ _ (by decide)
  have hs : attrFalsy (getAttr (processPolygonData d).attrs "stroke") = false := by
    rw [processPolygonData_attrs, getAttr_defaultAttr_ne _ _ _ _ (by decide)]
    exact attrFalsy_defaultAttr _ _ _ (by decide)
  have hf : attrFalsy (getAttr (processPolygonData d).attrs "fill") = false := by
    rw [processPolygonData_attrs, getAttr_defaultAttr_ne _ _ _ _ (by decide),
      getAttr_defaultAttr_ne _ _ _ _ (by decide)]
    exact attrFalsy_defaultAttr _ _ _ (by decide)
  have he : defaultAttr (defaultAttr (defaultAttr (processPolygonData d).attrs "fill" "#E2E8F0")
      "stroke" "#CBD5E1") "stroke-width" "1" = (processPolygonData d).attrs := by
    rw [defaultAttr_of_stable _ _ _ hf, defaultAttr_of_stable _ _ _ hs,
      defaultAttr_of_stable _ _ _ hsw]
  show ({ processPolygonData d with attrs := defaultAttr (defaultAttr (defaultAttr (processPolygonData d).attrs "fill" "#E2E8F0") "stroke" "#CBD5E1") "stroke-width" "1" } : NData) = processPolygonData d
  rw [he]

theorem polygonDefaulting_idem (x : NData) :
    polygonDefaulting (polygonDefaulting x) = polygonDefaulting x := by
  by_cases ht : (x.tag == "polygon") = true
  · have h1 : polygonDefaulting x = processPolygonData x := by simp [polygonDefaulting, ht]
    rw [h1]
    have ht2 : ((processPolygonData x).tag == "polygon") = true := ht
    simp only [polygonDefaulting, ht2, if_true]
    exact processPolygonData_idem x
  · have h1 : polygonDefaulting x = x := by simp [polygonDefaulting, ht]
    rw [h1, h1]

theorem svgAttrs_stable (d : NData) : attrFalsy (getAttr (svgAttrs d) "xmlns") = false := by
  unfold svgAttrs
  split
  · rw [getAttr_setAttr_self]
    rfl
  · rename_i h
    exact Bool.eq_false_iff.2 h

theorem svgAttrs_of_stable (e : NData) (h : attrFalsy (getAttr e.attrs "xmlns") = false) :
    svgAttrs e = e.attrs := by
  simp [svgAttrs, h]

theorem svgAttrs_idem (d : NData) :
    svgAttrs { d with attrs := svgAttrs d, style := svgStyle d } = svgAttrs d :=
  svgAttrs_of_stable { d with attrs := svgAttrs d, style := svgStyle d } (svgAttrs_stable d)

theorem svgStyle_idem (d : NData) :
    svgStyle { d with attrs := svgAttrs d, style := svgStyle d } = svgStyle d := by
  apply Style.ext <;> try rfl
  · show inlineSvgSize (svgAttrs { d with attrs := svgAttrs d, style := svgStyle d }) "width"
      (svgStyle d).width = (svgStyle d).width
    rw [svgAttrs_idem d]
    show inlineSvgSize (svgAttrs d) "width"
      (inlineSvgSize (svgAttrs d) "width" d.style.width)
      = inlineSvgSize (svgAttrs d) "width" d.style.width
    exact inlineSvgSize_idem _ _ _
  · show inlineSvgSize (svgAttrs { d with attrs := svgAttrs d, style := svgStyle d }) "height"
      (svgStyle d).height = (svgStyle d).height
    rw [svgAttrs_idem d]
    show inlineSvgSize (svgAttrs d) "height"
      (inlineSvgSize (svgAttrs d) "height" d.style.height)
      = inlineSvgSize (svgAttrs d) "height" d.style.height
    exact inlineSvgSize_idem _ _ _

theorem processSvg_idem (t : DomNode) : processSvg (processSvg t) = processSvg t := by
  rcases t with ⟨d, cs⟩
  simp only [processSvg]
  rw [svgAttrs_idem d, svgStyle_idem d]
  rw [mapForest_idem polygonDefaulting polygonDefaulting_idem]

/-- Idempotence of `processSvgElements`. -/
theorem processSvgElements_idem (svgs : List DomNode) :
    processSvgElements (processSvgElements svgs) = processSvgElements svgs := by
  unfold processSvgElements
  rw [List.map_map]
  apply List.map_congr_left
  intro t _
  exact processSvg_idem t

theorem processBlockBackground_idem (d : NData) :
    processBlockBackground (processBlockBackground d) = processBlockBackground d := by
  by_cases h : isRealBackground d.computedBackgroundColor = true
  · simp [processBlockBackground, h]
  · simp [processBlockBackground, h]

theorem processBlockBackground_isHtml (d : NData) :
    (processBlockBackground d).isHtml = d.isHtml := by
  unfold processBlockBackground
  split <;> rfl

theorem processBlockBackground_computedBg (d : NData) :
    (processBlockBackground d).computedBackgroundColor = d.computedBackgroundColor := by
  unfold processBlockBackground
  split <;> rfl

@[simp] theorem SProp.value_important (v : String) : (SProp.important v).value = v := rfl

@[simp] theorem SProp.value_assign (v : String) : (SProp.assign v).value = v := rfl

theorem applyFontStyles_idem (s : Style) : applyFontStyles (applyFontStyles s) = applyFontStyles s := by
  by_cases h1 : s.fontFamily.value = "" <;> by_cases h2 : s.fontSize.value = "" <;>
    by_cases h3 : s.fontWeight.value = "" <;>
    simp [applyFontStyles, h1, h2, h3]

theorem applyFontStyles_color (s : Style) : (applyFontStyles s).color = s.color := by
  by_cases h1 : s.fontFamily.value = "" <;> by_cases h2 : s.fontSize.value = "" <;>
    by_cases h3 : s.fontWeight.value = "" <;>
    simp [applyFontStyles, h1, h2, h3]

theorem applyFontStyles_bg (s : Style) (x : SProp) :
    applyFontStyles { s with backgroundColor := x }
      = { applyFontStyles s with backgroundColor := x } := by
  by_cases h1 : s.fontFamily.value = "" <;> by_cases h2 : s.fontSize.value = "" <;>
    by_cases h3 : s.fontWeight.value = "" <;>
    simp [applyFontStyles, h1, h2, h3]

theorem setColorIfUnset_idem (c : String) (x : NData) :
    setColorIfUnset c (setColorIfUnset c x) = setColorIfUnset c x := by
  by_cases h : (x.isHtml && (x.style.color.value == "")) = true
  · rw [Bool.and_eq_true] at h
    obtain ⟨hhtml, hcol⟩ := h
    by_cases hc : c = ""
    · subst hc
      simp [setColorIfUnset, hhtml, hcol]
    · simp [setColorIfUnset, hhtml, hcol, hc]
  · have h1 : setColorIfUnset c x = x := by
      unfold setColorIfUnset
      rw [if_neg h]
    rw [h1, h1]

theorem contentStyle_color (bg : String) (s : Style) :
    (contentStyle bg s).color = s.color := by
  unfold contentStyle
  split
  · exact applyFontStyles_color s
  · exact applyFontStyles_color s

theorem contentStyle_idem (bg : String) (s : Style) :
    contentStyle bg (contentStyle bg s) = contentStyle bg s := by
  by_cases h : isRealBackground bg = true
  · have e1 : ∀ u : Style, contentStyle bg u
        = { applyFontStyles u with backgroundColor := SProp.important "transparent" } := by
      intro u
      unfold contentStyle
      rw [if_pos h]
    rw [e1 s, e1 { applyFontStyles s with backgroundColor := SProp.important "transparent" }]
    rw [applyFontStyles_bg (applyFontStyles s) (SProp.important "transparent")]
    rw [applyFontStyles_idem s]
  · have e1 : ∀ u : Style, contentStyle bg u = applyFontStyles u := by
      intro u
      unfold contentStyle
      rw [if_neg h]
    rw [e1 s, e1 (applyFontStyles s)]
    exact applyFontStyles_idem s

theorem processContentElement_node (bg : String) (d : NData) (cs : DomForest) :
    processContentElement bg (DomNode.node d cs) =
      DomNode.node { d with style := contentStyle bg d.style }
        (if d.style.color.value == "" then cs
         else mapForest (setColorIfUnset d.style.color.value) cs) := rfl

theorem processContentElement_idem (bg : String) (t : DomNode) :
    processContentElement bg (processContentElement bg t) = processContentElement bg t := by
  rcases t with ⟨d, cs⟩
  have hcv : ({ d with style := contentStyle bg d.style } : NData).style.color.value
      = d.style.color.value := by
    show (contentStyle bg d.style).color.value = d.style.color.value
    rw [contentStyle_color]
  by_cases hcol : (d.style.color.value == "") = true
  · rw [processContentElement_node, if_pos hcol, processContentElement_node]
    rw [if_pos (by rw [hcv]; exact hcol)]
    rw [contentStyle_idem]
  · rw [processContentElement_node, if_neg hcol, processContentElement_node]
    rw [if_neg (by rw [hcv]; exact hcol)]
    rw [hcv, contentStyle_idem,
      mapForest_idem (setColorIfUnset d.style.color.value) (setColorIfUnset_idem _)]

theorem processContentElement_classes (bg : String) (t : DomNode) :
    (processContentElement bg t).data.classes = t.data.classes := by
  rcases t with ⟨d, cs⟩
  simp [processContentElement, DomNode.data]

theorem processContentElement_isHtml (bg : String) (t : DomNode) :
    (processContentElement bg t).data.isHtml = t.data.isHtml := by
  rcases t with ⟨d, cs⟩
  simp [processContentElement, DomNode.data]

theorem contentTransform_pres (bg : String) (t : DomNode) :
    hasContentClass (contentTransform bg t).data = hasContentClass t.data := by
  unfold contentTransform hasContentClass
  split
  · rw [processContentElement_classes]
  · rfl

theorem contentTransform_idem (bg : String) (t : DomNode) :
    contentTransform bg (contentTransform bg t) = contentTransform bg t := by
  by_cases hh : t.data.isHtml = true
  · have h1 : contentTransform bg t = processContentElement bg t := by
      simp [contentTransform, hh]
    rw [h1]
    have hh2 : (processContentElement bg t).data.isHtml = true := by
      rw [processContentElement_isHtml]
      exact hh
    simp only [contentTransform, hh2, if_true]
    exact processContentElement_idem bg t
  · have h1 : contentTransform bg t = t := by simp [contentTransform, hh]
    rw [h1, h1]

mutual

theorem updateFirstNode_idem (p : NData → Bool) (f : DomNode → DomNode)
    (hpres : ∀ t, p (f t).data = p t.data)
    (hf : ∀ t, p t.data = true → f (f t) = f t) :
    ∀ t, updateFirstNode p f (updateFirstNode p f t).1 = updateFirstNode p f t
  | .node d cs => by
    by_cases hp : p d = true
    · have h1 : updateFirstNode p f (DomNode.node d cs) = (f (DomNode.node d cs), true) := by
        simp [updateFirstNode, hp]
      rw [h1]
      rcases hft : f (DomNode.node d cs) with ⟨d2, cs2⟩
      have hp2 : p d2 = true := by
        have hpr := hpres (DomNode.node d cs)
        rw [hft] at hpr
        simpa [DomNode.data, hp] using hpr
      have hff := hf (DomNode.node d cs) (by simpa [DomNode.data] using hp)
      rw [hft] at hff
      simp only [updateFirstNode, hp2, if_true]
      rw [hff]
    · rcases hu : updateFirstForest p f cs with ⟨cs', b⟩
      cases b
      · have h1 : updateFirstNode p f (DomNode.node d cs) = (DomNode.node d cs, false) := by
          simp [updateFirstNode, hp, hu]
        rw [h1]
        exact h1
      · have h1 : updateFirstNode p f (DomNode.node d cs) = (DomNode.node d cs', true) := by
          simp [updateFirstNode, hp, hu]
        rw [h1]
        have hih := updateFirstForest_idem p f hpres hf cs
        rw [hu] at hih
        simp [updateFirstNode, hp, hih]

theorem updateFirstForest_idem (p : NData → Bool) (f : DomNode → DomNode)
    (hpres : ∀ t, p (f t).data = p t.data)
    (hf : ∀ t, p t.data = true → f (f t) = f t) :
    ∀ l, updateFirstForest p f (updateFirstForest p f l).1 = updateFirstForest p f l
  | .nil => rfl
  | .cons t ts => by
    rcases hn : updateFirstNode p f t with ⟨t', bt⟩
    cases bt
    · rcases hu : updateFirstForest p f ts with ⟨ts', b⟩
      have h1 : updateFirstForest p f (DomForest.cons t ts) = (DomForest.cons t ts', b) := by
        simp [updateFirstForest, hn, hu]
      rw [h1]
      have hih := updateFirstForest_idem p f hpres hf ts
      rw [hu] at hih
      simp [updateFirstForest, hn, hih]
    · have h1 : updateFirstForest p f (DomForest.cons t ts) = (DomForest.cons t' ts, true) := by
        simp [updateFirstForest, hn]
      rw [h1]
      have hih := updateFirstNode_idem p f hpres hf t
      rw [hn] at hih
      simp [updateFirstForest, hih]

end

theorem processTextRoot_node (d : NData) (cs : DomForest) :
    processTextRoot (DomNode.node d cs) =
      (if !d.isHtml then DomNode.node d cs
       else DomNode.node (processBlockBackground d)
        (updateFirstForest hasContentClass (contentTransform d.computedBackgroundColor) cs).1) :=
  rfl

theorem processTextRoot_idem (t : DomNode) :
    processTextRoot (processTextRoot t) = processTextRoot t := by
  rcases t with ⟨d, cs⟩
  by_cases hh : d.isHtml = true
  · have hnb : (!d.isHtml) = false := by rw [hh]; rfl
    have h1 : processTextRoot (DomNode.node d cs) = DomNode.node (processBlockBackground d)
        (updateFirstForest hasContentClass (contentTransform d.computedBackgroundColor) cs).1 := by
      rw [processTextRoot_node, hnb]
      rfl
    rw [h1]
    have hh2 : (!(processBlockBackground d).isHtml) = false := by
      rw [processBlockBackground_isHtml, hh]
      rfl
    rw [processTextRoot_node, hh2]
    simp only [if_false, Bool.false_eq_true]
    rw [processBlockBackground_computedBg, processBlockBackground_idem]
    have hidem := updateFirstForest_idem hasContentClass
      (contentTransform d.computedBackgroundColor)
      (fun t => contentTransform_pres d.computedBackgroundColor t)
      (fun t _ => contentTransform_idem d.computedBackgroundColor t) cs
    rw [hidem]
  · have hnb : (!d.isHtml) = true := by
      rcases hb : d.isHtml
      · rfl
      · exact absurd hb hh
    have h1 : processTextRoot (DomNode.node d cs) = DomNode.node d cs := by
      rw [processTextRoot_node, hnb]
      rfl
    rw [h1, h1]

/-- Idempotence of `processTextElements`. -/
theorem processTextElements_idem (ts : List DomNode) :
    processTextElements (processTextElements ts) = processTextElements ts := by
  unfold processTextElements
  rw [List.map_map]
  apply List.map_congr_left
  intro t _
  exact processTextRoot_idem t

theorem processShape_idem (t : DomNode) : processShape (processShape t) = processShape t := by
  rcases t with ⟨d, cs⟩
  by_cases hh : d.isHtml = true
  · by_cases hp : forestHasTag "polygon" cs = true
    · simp [processShape, hh, hp]
    · simp [processShape, hh, hp]
  · simp [processShape, hh]

/-- Idempotence of `processShapeElements`. -/
theorem processShapeElements_idem (ss : List DomNode) :
    processShapeElements (processShapeElements ss) = processShapeElements ss := by
  unfold processShapeElements
  rw [List.map_map]
  apply List.map_congr_left
  intro t _
  exact processShape_idem t

theorem hideUiData_idem (x : NData) : hideUiData (hideUiData x) = hideUiData x := by
  by_cases h : (matchesUiSelector x && x.isHtml) = true
  · simp [hideUiData, h, matchesUiSelector] at h ⊢
    simp [h]
  · have h1 : hideUiData x = x := by
      unfold hideUiData
      rw [if_neg h]
    rw [h1, h1]

/-- Idempotence of `hideUiControls`. -/
theorem hideUiControls_idem (pg : DomNode) :
    hideUiControls (hideUiControls pg) = hideUiControls pg := by
  rcases pg with ⟨d, cs⟩
  simp only [hideUiControls]
  rw [mapForest_idem hideUiData hideUiData_idem]

/-- C6: every normalizer of the export pipeline is idempotent — for every
scope (collection of images with any default fit, SVG roots, text elements,
shape containers, or a control-hiding scope), running the pass twice in
succession yields exactly the same final inline-style and attribute state as
running it once. -/
theorem normalizers_idempotent :
    (∀ images dflt, processImages (processImages images dflt) dflt = processImages images dflt) ∧
    (∀ svgs, processSvgElements (processSvgElements svgs) = processSvgElements svgs) ∧
    (∀ ts, processTextElements (processTextElements ts) = processTextElements ts) ∧
    (∀ ss, processShapeElements (processShapeElements ss) = processShapeElements ss) ∧
    (∀ pg, hideUiControls (hideUiControls pg) = hideUiControls pg) :=
  ⟨processImages_idem, processSvgElements_idem, processTextElements_idem,
    processShapeElements_idem, hideUiControls_idem⟩
